import Mathlib

/-!
Verification of the offline-caching service worker (`src/sw.js`) of the
Todo PWA repository. The worker is embedded shallowly: each event handler
becomes a pure Lean function over an explicit cache-store state and a
network oracle, returning the result delivered to the caller, the updated
store, and a trace of observable events. Awaited steps of the source emit
their events before subsequent ones; promise chains the source does not
await (`caches.open(...).then(cache => cache.put(...))`,
`self.clients.matchAll().then(...)`) emit their events after the handler's
`returned` event, matching the JavaScript event loop: such a continuation
cannot run before the synchronous code that scheduled it finishes.
-/

/-- Key of a cached entry: the request identity (its URL). -/
abbrev Key := String

/-- A captured response: status, response type (`basic`, `opaque`, ...) and
body snapshot. -/
structure Response where
  status : Nat
  rtype : String
  body : String
deriving DecidableEq, Repr

/-- `Response.ok` of the Fetch API: status in the range 200..299. -/
def Response.ok (r : Response) : Bool :=
  decide (200 ≤ r.status) && decide (r.status ≤ 299)

/-- One named cache partition: an association list from keys to responses. -/
abbrev Partition := List (Key × Response)

/-- `Cache.put`: store `r` under `k`, overwriting any previous entry. -/
def partPut (p : Partition) (k : Key) (r : Response) : Partition :=
  (k, r) :: p.filter (fun e => !(e.1 == k))

/-- `Cache.match` on a single partition: first entry stored under `k`. -/
def partLookup (p : Partition) (k : Key) : Option Response :=
  match p with
  | [] => none
  | (k2, r) :: rest => if k2 = k then some r else partLookup rest k

/-- The whole cache storage: named partitions in creation order. -/
abbrev CacheStore := List (String × Partition)

/-- Contents of the partition named `name` (empty if absent, as reads
against a not-yet-created cache find nothing). -/
def openPart (s : CacheStore) (name : String) : Partition :=
  match s with
  | [] => []
  | (n, p) :: rest => if n = name then p else openPart rest name

/-- `caches.match(request)`: search every partition in order. -/
def cachesMatch (s : CacheStore) (k : Key) : Option Response :=
  match s with
  | [] => none
  | (_, p) :: rest =>
    match partLookup p k with
    | some r => some r
    | none => cachesMatch rest k

/-- `caches.open(name)` creates the partition when it is absent. -/
def CacheStore.ensure (s : CacheStore) (name : String) : CacheStore :=
  match s with
  | [] => [(name, [])]
  | (n, p) :: rest =>
    if n = name then (n, p) :: rest else (n, p) :: CacheStore.ensure rest name

/-- Write `r` under `k` into the partition named `name`, creating the
partition when it is absent (`caches.open(name)` then `cache.put`). -/
def CacheStore.putIn (s : CacheStore) (name : String) (k : Key) (r : Response) :
    CacheStore :=
  match s with
  | [] => [(name, partPut [] k r)]
  | (n, p) :: rest =>
    if n = name then (n, partPut p k r) :: rest
    else (n, p) :: CacheStore.putIn rest name k r

/-- `caches.delete(name)`. -/
def CacheStore.deleteName (s : CacheStore) (name : String) : CacheStore :=
  s.filter (fun e => !(e.1 == name))

/-- `const CACHE_NAME = 'todo-pwa-v1.0.0'` (sw.js line 2). -/
def CACHE_NAME : String := "todo-pwa-v1.0.0"

/-- `const API_CACHE_NAME = 'todo-api-cache-v1.0.0'` (sw.js line 3). -/
def API_CACHE_NAME : String := "todo-api-cache-v1.0.0"

/-- `const STATIC_ASSETS = [...]` (sw.js lines 6-13). -/
def STATIC_ASSETS : List String :=
  ["./", "./index.html", "./style.css", "./app.js", "./manifest.json",
   "./icons/images.jpg"]

/-- Does the character list start with `sub`? (helper for `includes`). -/
def listStartsWith : List Char → List Char → Bool
  | [], _ => true
  | _ :: _, [] => false
  | a :: as, b :: bs => (a == b) && listStartsWith as bs

/-- Does `sub` occur as a contiguous run inside `l`? -/
def listOccurs (sub : List Char) : List Char → Bool
  | [] => listStartsWith sub []
  | b :: bs => listStartsWith sub (b :: bs) || listOccurs sub bs

/-- JavaScript `s.includes(sub)`. -/
def strIncludes (s sub : String) : Bool :=
  listOccurs sub.toList s.toList

/-- An intercepted request: URL, its parsed pathname and hostname, and the
request mode (`navigate` for page navigations). -/
structure Request where
  url : Key
  pathname : String
  hostname : String
  mode : String
deriving DecidableEq, Repr

/-- Classification of sw.js line 63: a request is API/data when its path
contains `/api/` or its host contains `jsonplaceholder`. -/
def isApiRequest (r : Request) : Bool :=
  strIncludes r.pathname "/api/" || strIncludes r.hostname "jsonplaceholder"

/-- Outcome of a network `fetch`: a settled response, or a rejection
carrying the error value. -/
inductive FetchOutcome where
  | success (r : Response)
  | failure (e : String)
deriving DecidableEq, Repr

/-- Did the fetch settle with a response? -/
def fetchSucceeded : FetchOutcome → Bool
  | .success _ => true
  | .failure _ => false

/-- Did the fetch fail outright or settle with a non-ok status? -/
def fetchSettledNotOk : FetchOutcome → Bool
  | .success r => !(Response.ok r)
  | .failure _ => true

/-- What the caller of `respondWith` receives: a response, a resolution
with no response (`undefined`), or a rejection carrying an error value. -/
inductive FetchResult where
  | ok (r : Response)
  | noResponse
  | err (e : String)
deriving DecidableEq, Repr

/-- Observable events during the handling of one request. -/
inductive Ev where
  | cacheLookup (k : Key)
  | fetchAttempt (k : Key)
  | cacheWrite (part : String) (k : Key)
  | returned
  | postMessage (online : Bool)
deriving DecidableEq, Repr

/-- Does event `a` occur in the trace? -/
def hasEv (a : Ev) : List Ev → Bool
  | [] => false
  | e :: rest => if e = a then true else hasEv a rest

/-- After the first occurrence of `a` in the trace, does `b` occur? -/
def firstBefore (a b : Ev) : List Ev → Bool
  | [] => false
  | e :: rest => if e = a then hasEv b rest else firstBefore a b rest

/-- Result of handling one fetch event: value delivered to the caller,
cache storage afterwards (including writes of un-awaited continuations),
and the event trace in execution order. -/
structure Outcome where
  result : FetchResult
  store : CacheStore
  trace : List Ev
deriving DecidableEq, Repr

/-- Static branch of the fetch listener (sw.js lines 69-103):
cache-first via `caches.match`; on a miss, fetch; cache a full basic 200
through an un-awaited `caches.open(...).then(cache => cache.put(...))`
(its write lands after the return); on fetch failure, fall back to the
cached `./index.html` for navigations, otherwise rethrow. -/
def handleStatic (store : CacheStore) (req : Request) (net : FetchOutcome) :
    Outcome :=
  match cachesMatch store req.url with
  | some r =>
    { result := .ok r, store := store, trace := [.cacheLookup req.url, .returned] }
  | none =>
    match net with
    | .success resp =>
      if resp.status = 200 ∧ resp.rtype = "basic" then
        { result := .ok resp
          store := store.putIn CACHE_NAME req.url resp
          trace := [.cacheLookup req.url, .fetchAttempt req.url, .returned,
                    .cacheWrite CACHE_NAME req.url] }
      else
        { result := .ok resp, store := store
          trace := [.cacheLookup req.url, .fetchAttempt req.url, .returned] }
    | .failure e =>
      if req.mode = "navigate" then
        match cachesMatch store "./index.html" with
        | some r =>
          { result := .ok r, store := store
            trace := [.cacheLookup req.url, .fetchAttempt req.url,
                      .cacheLookup "./index.html", .returned] }
        | none =>
          { result := .noResponse, store := store
            trace := [.cacheLookup req.url, .fetchAttempt req.url,
                      .cacheLookup "./index.html", .returned] }
      else
        { result := .err e, store := store
          trace := [.cacheLookup req.url, .fetchAttempt req.url] }

/-- Cache fallback of `handleApiRequest` (sw.js lines 137-156): look up the
api partition; on a hit, notify `online = false` through an un-awaited
`clients.matchAll().then(...)` and return the entry; otherwise throw
`'No cached data available'`. -/
def apiCacheFallback (s : CacheStore) (req : Request) : Outcome :=
  match partLookup (openPart s API_CACHE_NAME) req.url with
  | some r =>
    { result := .ok r, store := s
      trace := [.fetchAttempt req.url, .cacheLookup req.url, .returned,
                .postMessage false] }
  | none =>
    { result := .err "No cached data available", store := s
      trace := [.fetchAttempt req.url, .cacheLookup req.url] }

/-- `handleApiRequest` (sw.js lines 107-157): open the api partition, try
the network first; on an ok response, `await cache.put` (the write
completes before anything later), then notify `online = true` through an
un-awaited `clients.matchAll().then(...)` and return the response; on
failure or a non-ok status, fall back to the cache. -/
def handleApiRequest (store : CacheStore) (req : Request) (net : FetchOutcome) :
    Outcome :=
  let s1 := CacheStore.ensure store API_CACHE_NAME
  match net with
  | .success resp =>
    if Response.ok resp then
      { result := .ok resp
        store := s1.putIn API_CACHE_NAME req.url resp
        trace := [.fetchAttempt req.url, .cacheWrite API_CACHE_NAME req.url,
                  .returned, .postMessage true] }
    else apiCacheFallback s1 req
  | .failure _ => apiCacheFallback s1 req

/-- The fetch listener (sw.js lines 59-104): classify, then dispatch to the
API strategy or the static strategy. -/
def fetchHandler (store : CacheStore) (req : Request) (net : FetchOutcome) :
    Outcome :=
  if isApiRequest req then handleApiRequest store req net
  else handleStatic store req net

/-- Result of the install handler. `installed` is whether the promise given
to `event.waitUntil` fulfilled (so the new version finishes installing). -/
structure InstallOut where
  installed : Bool
  skipWaitingCalled : Bool
  store : CacheStore
deriving DecidableEq, Repr

/-- Does `cache.addAll(STATIC_ASSETS)` succeed under the network oracle
`net`? It rejects as soon as any asset fails to fetch or is non-ok. -/
def addAllOk (net : String → Option Response) : Bool :=
  STATIC_ASSETS.all (fun a =>
    match net a with
    | some r => Response.ok r
    | none => false)

/-- The writes `cache.addAll` performs when it succeeds. -/
def addAllWrites (s : CacheStore) (net : String → Option Response) : CacheStore :=
  STATIC_ASSETS.foldl (fun acc a =>
    match net a with
    | some r => CacheStore.putIn acc CACHE_NAME a r
    | none => acc) s

/-- The install listener (sw.js lines 16-33):
`caches.open(CACHE_NAME).then(cache => cache.addAll(STATIC_ASSETS))
 .then(() => self.skipWaiting()).catch(error => console.error(...))`.
When `addAll` rejects, the trailing `.catch` handles the rejection and
returns `undefined`, so the promise handed to `event.waitUntil` fulfills
and installation completes anyway; only `skipWaiting` is skipped. -/
def installHandler (store : CacheStore) (net : String → Option Response) :
    InstallOut :=
  let s1 := CacheStore.ensure store CACHE_NAME
  if addAllOk net then
    { installed := true, skipWaitingCalled := true, store := addAllWrites s1 net }
  else
    { installed := true, skipWaitingCalled := false, store := s1 }

/-- The deletions of the activate listener (sw.js lines 36-56): every
enumerated cache name different from both `CACHE_NAME` and
`API_CACHE_NAME` is deleted. -/
def activateDeleted (names : List String) : List String :=
  names.filter (fun n => !(n == CACHE_NAME) && !(n == API_CACHE_NAME))

/-- Store state after the activate listener ran its deletions. -/
def activateHandler (s : CacheStore) : CacheStore :=
  (activateDeleted (s.map Prod.fst)).foldl CacheStore.deleteName s

/-- The reply posted on the private channel for a `CHECK_NETWORK` probe. -/
structure Reply where
  online : Bool
deriving DecidableEq, Repr

/-- The `CHECK_NETWORK` branch of the message listener (sw.js lines
190-199): probe fetch, reply `online = true` on success via `.then`,
`online = false` on failure via `.catch`; the catch leaves no rejection. -/
def handleCheckNetwork (probe : FetchOutcome) : Except String Reply :=
  match probe with
  | .success _ => Except.ok { online := true }
  | .failure _ => Except.ok { online := false }

/-! Helper lemmas about the cache storage. -/

/-- `caches.open` alone never changes what any partition contains. -/
theorem openPart_ensure (s : CacheStore) (n m : String) :
    openPart (CacheStore.ensure s n) m = openPart s m := by
  induction s with
  | nil => simp [CacheStore.ensure, openPart]
  | cons hd tl ih =>
    obtain ⟨n2, p⟩ := hd
    by_cases h : n2 = n
    · simp [CacheStore.ensure, h]
    · simp [CacheStore.ensure, openPart, h, ih]

/-- Writing into partition `n` leaves every other partition unchanged. -/
theorem openPart_putIn_ne (s : CacheStore) (n : String) (k : Key) (r : Response)
    (m : String) (h : ¬(m = n)) :
    openPart (CacheStore.putIn s n k r) m = openPart s m := by
  induction s with
  | nil => simp [CacheStore.putIn, openPart, Ne.symm h]
  | cons hd tl ih =>
    obtain ⟨n2, p⟩ := hd
    by_cases h2 : n2 = n
    · subst h2
      simp [CacheStore.putIn, openPart, Ne.symm h]
    · simp [CacheStore.putIn, openPart, h2, ih]

/-- Writing into partition `n` performs `partPut` on that partition. -/
theorem openPart_putIn_self (s : CacheStore) (n : String) (k : Key) (r : Response) :
    openPart (CacheStore.putIn s n k r) n = partPut (openPart s n) k r := by
  induction s with
  | nil => simp [CacheStore.putIn, openPart]
  | cons hd tl ih =>
    obtain ⟨n2, p⟩ := hd
    by_cases h : n2 = n
    · subst h
      simp [CacheStore.putIn, openPart]
    · simp [CacheStore.putIn, openPart, h, ih]

/-- A `partPut` is immediately visible to `partLookup` on the same key. -/
theorem partLookup_partPut_self (p : Partition) (k : Key) (r : Response) :
    partLookup (partPut p k r) k = some r := by
  simp [partPut, partLookup]

/-- The api cache fallback never modifies the store. -/
theorem apiCacheFallback_store (s : CacheStore) (req : Request) :
    (apiCacheFallback s req).store = s := by
  unfold apiCacheFallback
  cases partLookup (openPart s API_CACHE_NAME) req.url <;> rfl

/-- `handleApiRequest` changes no partition other than the api one. -/
theorem handleApiRequest_store_frame (store : CacheStore) (req : Request)
    (net : FetchOutcome) (name : String) (hne : ¬(name = API_CACHE_NAME)) :
    openPart (handleApiRequest store req net).store name = openPart store name := by
  cases net with
  | success resp =>
    by_cases hok : Response.ok resp = true
    · simp [handleApiRequest, hok]
      rw [openPart_putIn_ne _ _ _ _ _ hne, openPart_ensure]
    · have hok2 : Response.ok resp = false := by simpa using hok
      simp [handleApiRequest, hok2, apiCacheFallback_store, openPart_ensure]
  | failure e =>
    simp [handleApiRequest, apiCacheFallback_store, openPart_ensure]

/-- The static branch changes no partition other than the static one. -/
theorem handleStatic_store_frame (store : CacheStore) (req : Request)
    (net : FetchOutcome) (name : String) (hne : ¬(name = CACHE_NAME)) :
    openPart (handleStatic store req net).store name = openPart store name := by
  cases hm : cachesMatch store req.url with
  | some r => simp [handleStatic, hm]
  | none =>
    cases net with
    | success resp =>
      by_cases hc : resp.status = 200 ∧ resp.rtype = "basic"
      · simp [handleStatic, hm, hc]
        exact openPart_putIn_ne _ _ _ _ _ hne
      · simp [handleStatic, hm, hc]
    | failure e =>
      by_cases hm2 : req.mode = "navigate"
      · simp [handleStatic, hm, hm2]
        cases cachesMatch store "./index.html" <;> rfl
      · simp [handleStatic, hm, hm2]

/-! Concrete fixtures used by closed witnesses and counterexamples. -/

/-- A data request: its host contains `jsonplaceholder`. -/
def reqApi0 : Request :=
  { url := "https://jsonplaceholder.typicode.com/todos", pathname := "/todos",
    hostname := "jsonplaceholder.typicode.com", mode := "cors" }

/-- A static request: neither an `/api/` path nor a data-provider host. -/
def reqStatic0 : Request :=
  { url := "./style.css", pathname := "/style.css",
    hostname := "example.com", mode := "no-cors" }

/-- A navigation request for a page that is not in the cache. -/
def reqNavOther : Request :=
  { url := "./about.html", pathname := "/about.html",
    hostname := "example.com", mode := "navigate" }

/-- A navigation request for the main document. -/
def reqIndex : Request :=
  { url := "./index.html", pathname := "/index.html",
    hostname := "example.com", mode := "navigate" }

/-- A full, valid, non-opaque 200 response. -/
def resp200 : Response := { status := 200, rtype := "basic", body := "hello" }

/-- The cached copy of the main document. -/
def respIndex : Response := { status := 200, rtype := "basic", body := "shell" }

/-- A store whose static partition holds the main document. -/
def storeShell : CacheStore := [(CACHE_NAME, [("./index.html", respIndex)])]

/-- A network oracle under which every app-shell asset fetches fine except
`./icons/images.jpg`, so `cache.addAll(STATIC_ASSETS)` rejects. -/
def failingNet : String → Option Response :=
  fun a => if a = "./icons/images.jpg" then none else some resp200

/-! The claims. -/

/-- C1: the spec states that a population failure during install is fatal
(the new version does not become active). In the source, the trailing
`.catch` on the install chain (sw.js lines 29-31) handles the `addAll`
rejection, so the promise given to `event.waitUntil` fulfills: evaluated at
a network oracle under which `./icons/images.jpg` fails, `addAll` rejects
yet installation completes (only `skipWaiting` is skipped), contradicting
the claim and the handler's own `Installation failed` log message. -/
theorem install_failure_swallowed :
    addAllOk failingNet = false
    ∧ (installHandler [] failingNet).installed = true
    ∧ (installHandler [] failingNet).skipWaitingCalled = false := by
  decide

/-- C2 counterexample: for the static request `./style.css` missing from an
empty store, whose fetch succeeds with a full valid non-opaque 200, the
write into the static partition does not happen before the response is
returned to the caller: the write occurs, but only after the `returned`
event, because the source never awaits the `caches.open(...).then(...)`
chain. -/
theorem static_write_before_return_cex :
    hasEv (.cacheWrite CACHE_NAME "./style.css")
      (fetchHandler [] reqStatic0 (.success resp200)).trace = true
    ∧ firstBefore (.cacheWrite CACHE_NAME "./style.css") .returned
      (fetchHandler [] reqStatic0 (.success resp200)).trace = false
    ∧ firstBefore .returned (.cacheWrite CACHE_NAME "./style.css")
      (fetchHandler [] reqStatic0 (.success resp200)).trace = true := by
  decide

/-- C2 (amended): for every static-classified request that misses the cache
and whose fetch succeeds with a full valid non-opaque 200, the response is
returned to the caller and a copy is written into the static partition, but
the write is initiated without being awaited, so it completes after the
response is returned (and is visible in the resulting store). -/
theorem static_write_initiated_not_awaited (store : CacheStore) (req : Request)
    (resp : Response) (hstatic : isApiRequest req = false)
    (hmiss : cachesMatch store req.url = none)
    (h200 : resp.status = 200) (hbasic : resp.rtype = "basic") :
    (fetchHandler store req (.success resp)).result = .ok resp
    ∧ firstBefore .returned (.cacheWrite CACHE_NAME req.url)
      (fetchHandler store req (.success resp)).trace = true
    ∧ partLookup (openPart (fetchHandler store req (.success resp)).store CACHE_NAME)
      req.url = some resp := by
  simp [fetchHandler, hstatic, handleStatic, hmiss, h200, hbasic, firstBefore,
        hasEv, openPart_putIn_self, partLookup_partPut_self]

/-- Witness for the amended C2 at the concrete request `./style.css`. -/
theorem static_write_initiated_not_awaited_witness :
    (fetchHandler [] reqStatic0 (.success resp200)).result = .ok resp200
    ∧ firstBefore .returned (.cacheWrite CACHE_NAME reqStatic0.url)
      (fetchHandler [] reqStatic0 (.success resp200)).trace = true
    ∧ partLookup (openPart (fetchHandler [] reqStatic0 (.success resp200)).store CACHE_NAME)
      reqStatic0.url = some resp200 :=
  static_write_initiated_not_awaited [] reqStatic0 resp200
    (by decide) (by decide) (by decide) (by decide)

/-- C3: for every API-classified request whose fetch fails or settles
non-ok while the api-data partition holds no entry for it, the handler
terminates by throwing `No cached data available` to the caller. -/
theorem api_no_network_no_cache_fails (store : CacheStore) (req : Request)
    (net : FetchOutcome) (hapi : isApiRequest req = true)
    (hnet : fetchSettledNotOk net = true)
    (hmiss : partLookup (openPart store API_CACHE_NAME) req.url = none) :
    (fetchHandler store req net).result = .err "No cached data available" := by
  cases net with
  | success resp =>
    have hok : Response.ok resp = false := by
      simpa [fetchSettledNotOk] using hnet
    simp [fetchHandler, hapi, handleApiRequest, hok, apiCacheFallback,
          openPart_ensure, hmiss]
  | failure e =>
    simp [fetchHandler, hapi, handleApiRequest, apiCacheFallback,
          openPart_ensure, hmiss]

/-- Witness for C3: a failing data request against an empty store. -/
theorem api_no_network_no_cache_fails_witness :
    (fetchHandler [] reqApi0 (.failure "down")).result =
      .err "No cached data available" :=
  api_no_network_no_cache_fails [] reqApi0 (.failure "down")
    (by decide) (by decide) (by decide)

/-- C4: for every API-classified request whose fetch succeeds with an ok
status, the write into the api-data partition is awaited, so it completes
before the `online = true` NetworkStatusEvent is emitted: in the trace the
first occurrence of the cache write is followed by the post of the
message. -/
theorem api_cache_write_before_online_event (store : CacheStore) (req : Request)
    (resp : Response) (hapi : isApiRequest req = true)
    (hok : Response.ok resp = true) :
    firstBefore (.cacheWrite API_CACHE_NAME req.url) (.postMessage true)
      (fetchHandler store req (.success resp)).trace = true := by
  simp [fetchHandler, hapi, handleApiRequest, hok, firstBefore, hasEv]

/-- Witness for C4 at a concrete successful data request. -/
theorem api_cache_write_before_online_event_witness :
    firstBefore (.cacheWrite API_CACHE_NAME reqApi0.url) (.postMessage true)
      (fetchHandler [] reqApi0 (.success resp200)).trace = true :=
  api_cache_write_before_online_event [] reqApi0 resp200 (by decide) (by decide)

/-- C5: for every static-classified request with a matching cache entry,
the cached response is returned, the store is untouched, and no network
fetch of any URL occurs during its handling. -/
theorem static_hit_no_fetch (store : CacheStore) (req : Request)
    (net : FetchOutcome) (r : Response) (u : Key)
    (hstatic : isApiRequest req = false)
    (hhit : cachesMatch store req.url = some r) :
    (fetchHandler store req net).result = .ok r
    ∧ (fetchHandler store req net).store = store
    ∧ hasEv (.fetchAttempt u) (fetchHandler store req net).trace = false := by
  simp [fetchHandler, hstatic, handleStatic, hhit, hasEv]

/-- Witness for C5: the cached main document is served offline with no
fetch event. -/
theorem static_hit_no_fetch_witness :
    (fetchHandler storeShell reqIndex (.failure "down")).result = .ok respIndex
    ∧ (fetchHandler storeShell reqIndex (.failure "down")).store = storeShell
    ∧ hasEv (.fetchAttempt "./index.html")
      (fetchHandler storeShell reqIndex (.failure "down")).trace = false :=
  static_hit_no_fetch storeShell reqIndex (.failure "down") respIndex
    "./index.html" (by decide) (by decide)

/-- C6: activation deletes exactly the enumerated partitions whose names
differ from both current-version names, and in particular on the list
`old static, old api, CACHE_NAME, API_CACHE_NAME` it deletes exactly the
two old-version names. -/
theorem activate_deletes_exactly_stale :
    (∀ (names : List String) (n : String),
       n ∈ activateDeleted names ↔
         (n ∈ names ∧ ¬(n = CACHE_NAME) ∧ ¬(n = API_CACHE_NAME)))
    ∧ activateDeleted ["static@v1", "api@v1", CACHE_NAME, API_CACHE_NAME] =
        ["static@v1", "api@v1"] := by
  constructor
  · intro names n
    simp [activateDeleted, List.mem_filter, and_assoc]
  · decide

/-- C7: for every static-classified request that misses the cache and whose
fetch fails, a navigation request receives the cached `./index.html` as the
fallback shell, and a non-navigation request has the fetch failure
propagated to it unchanged. -/
theorem static_failure_navigation_fallback (store : CacheStore) (req : Request)
    (e : String) (r : Response) (hstatic : isApiRequest req = false)
    (hmiss : cachesMatch store req.url = none) :
    (req.mode = "navigate" → cachesMatch store "./index.html" = some r →
       (fetchHandler store req (.failure e)).result = .ok r)
    ∧ (¬(req.mode = "navigate") →
       (fetchHandler store req (.failure e)).result = .err e) := by
  constructor
  · intro hm hidx
    simp [fetchHandler, hstatic, handleStatic, hmiss, hm, hidx]
  · intro hm
    simp [fetchHandler, hstatic, handleStatic, hmiss, hm]

/-- Witness for C7: a failing navigation to an uncached page is answered
with the cached main document. -/
theorem static_failure_navigation_fallback_witness :
    (fetchHandler storeShell reqNavOther (.failure "down")).result =
      .ok respIndex :=
  (static_failure_navigation_fallback storeShell reqNavOther "down" respIndex
    (by decide) (by decide)).1 (by decide) (by decide)

/-- C8: the `CHECK_NETWORK` handler always replies on the private channel
with a boolean — `online = true` exactly when the probe fetch succeeded —
and never propagates the probe failure as an exception. -/
theorem check_network_always_replies_bool (probe : FetchOutcome) :
    handleCheckNetwork probe = Except.ok { online := fetchSucceeded probe } := by
  cases probe <;> rfl

/-- C9: storing a response under key `k` in a partition and immediately
reading `k` back returns a response semantically equal to it in status and
body. -/
theorem cache_put_match_roundtrip (p : Partition) (k : Key) (r : Response) :
    ∃ r2, partLookup (partPut p k r) k = some r2
      ∧ r2.status = r.status ∧ r2.body = r.body :=
  ⟨r, partLookup_partPut_self p k r, rfl, rfl⟩

/-- C10: each strategy's cache effects are confined to its own partition:
handling an API-classified request leaves every partition other than the
api-data one unchanged, and handling a static-classified request leaves
every partition other than the static one unchanged. -/
theorem strategy_cache_effects_confined (store : CacheStore) (req : Request)
    (net : FetchOutcome) (name : String) :
    (isApiRequest req = true → ¬(name = API_CACHE_NAME) →
       openPart (fetchHandler store req net).store name = openPart store name)
    ∧ (isApiRequest req = false → ¬(name = CACHE_NAME) →
       openPart (fetchHandler store req net).store name = openPart store name) := by
  constructor
  · intro hapi hne
    simp only [fetchHandler, hapi, if_true]
    exact handleApiRequest_store_frame store req net name hne
  · intro hst hne
    simp only [fetchHandler, hst, Bool.false_eq_true, if_false]
    exact handleStatic_store_frame store req net name hne

/-- Witness for C10: a failing data request leaves the static partition
alone, and a cacheable static fetch leaves the api partition alone. -/
theorem strategy_cache_effects_confined_witness :
    openPart (fetchHandler [] reqApi0 (.failure "down")).store CACHE_NAME =
      openPart ([] : CacheStore) CACHE_NAME
    ∧ openPart (fetchHandler [] reqStatic0 (.success resp200)).store API_CACHE_NAME =
      openPart ([] : CacheStore) API_CACHE_NAME :=
  ⟨(strategy_cache_effects_confined [] reqApi0 (.failure "down") CACHE_NAME).1
      (by decide) (by decide),
   (strategy_cache_effects_confined [] reqStatic0 (.success resp200) API_CACHE_NAME).2
      (by decide) (by decide)⟩
